import Mathlib

/-!
Verification development for the EU AI Act risk classification pipeline
(src/ai_act_classifier_with_search.py).  The source is embedded shallowly:
text is a list of characters, Python `kw in text` is substring containment,
the two agents (EnhancedInformationHarvestingAgent, RiskClassificationAgent)
become pure functions, the classification agent mutable accumulators become
an explicit AgentState threaded through the stage checks.
-/

/-- Text as the embedding works with it: a list of characters. -/
abbrev Str := List Char

/-- Coerce a Lean string literal to the character-list representation. -/
def str (s : String) : Str := s.data

/-- Python str.lower, modelled character by character. -/
def lowerStr (s : Str) : Str := s.map Char.toLower

/-- Python `needle in haystack` on strings: `needle` occurs contiguously in
`haystack`. -/
def containsSub (needle : Str) : Str → Bool
  | [] => needle.isEmpty
  | c :: rest => needle.isPrefixOf (c :: rest) || containsSub needle rest

/-- Python str.strip: drop whitespace from both ends. -/
def stripStr (s : Str) : Str :=
  ((s.dropWhile Char.isWhitespace).reverse.dropWhile Char.isWhitespace).reverse

/-- Helper for `titleCase`: the flag records whether the previous character
was alphabetic (then a letter is lowercased, otherwise uppercased). -/
def titleCaseAux : Bool → Str → Str
  | _, [] => []
  | prev, c :: rest =>
      (if c.isAlpha then (if prev then c.toLower else c.toUpper) else c)
        :: titleCaseAux c.isAlpha rest

/-- Python str.title: uppercase each letter that follows a non-letter,
lowercase the other letters. -/
def titleCase (s : Str) : Str := titleCaseAux false s

/-!
The keyword taxonomies of `EnhancedInformationHarvestingAgent._analyze_description`
(src lines 181-313), transcribed dictionary by dictionary in declaration order.
-/

def sector_keywords : List (Str × List Str) := [
  (str "automotive", [str "car", str "vehicle", str "driver", str "automotive", str "driving", str "autonomous"]),
  (str "healthcare", [str "health", str "medical", str "patient", str "clinical", str "diagnosis", str "treatment", str "hospital"]),
  (str "financial", [str "bank", str "finance", str "credit", str "loan", str "mortgage", str "payment", str "insurance"]),
  (str "education", [str "education", str "student", str "learning", str "school", str "university", str "academic"]),
  (str "law enforcement", [str "police", str "law enforcement", str "crime", str "investigation", str "surveillance"]),
  (str "employment", [str "recruitment", str "hiring", str "employment", str "hr", str "candidate", str "job"]),
  (str "critical infrastructure", [str "infrastructure", str "energy", str "water", str "electricity", str "utility"]),
  (str "border control", [str "border", str "migration", str "asylum", str "immigration", str "customs"]),
  (str "justice", [str "court", str "justice", str "legal", str "judicial", str "litigation"])
]

def biometric_indicators : List (Str × List Str) := [
  (str "facial recognition", [str "facial recognition", str "face recognition", str "face detection", str "facial identification"]),
  (str "fingerprint", [str "fingerprint", str "fingerprint scan", str "fingerprint recognition"]),
  (str "emotion recognition", [str "emotion recognition", str "emotion detection", str "emotional state", str "sentiment analysis"]),
  (str "voice biometric", [str "voice recognition", str "speaker identification", str "voice biometric"]),
  (str "iris scan", [str "iris scan", str "iris recognition", str "retinal scan"]),
  (str "gait recognition", [str "gait", str "walking pattern"]),
  (str "behavioral biometric", [str "keystroke", str "mouse movement", str "behavioral biometric"])
]

def decision_indicators : List (Str × List Str) := [
  (str "Decision-making", [str "decide", str "decision", str "approve", str "reject", str "determine", str "evaluate", str "assess", str "score", str "rate"]),
  (str "Assistive/Recommendatory", [str "recommend", str "suggest", str "assist", str "advise", str "guide", str "help"]),
  (str "Fully Automated Decision", [str "automated decision", str "automatic decision", str "without human intervention"]),
  (str "Informational", [str "inform", str "display", str "show", str "present", str "visualize"])
]

def risk_indicators : List (Str × List Str) := [
  (str "Safety-critical environment", [str "safety", str "critical", str "emergency", str "life-threatening"]),
  (str "Vehicle operation", [str "vehicle", str "car", str "driver", str "driving", str "autonomous vehicle", str "self-driving"]),
  (str "Medical decision", [str "diagnosis", str "treatment", str "medical decision", str "clinical decision", str "patient care"]),
  (str "Financial decision", [str "credit", str "loan", str "financial decision", str "creditworthiness", str "credit score"]),
  (str "Law enforcement", [str "law enforcement", str "police", str "crime", str "investigation", str "predictive policing"]),
  (str "Employment decision", [str "recruitment", str "hiring", str "employment decision", str "candidate selection", str "performance evaluation"]),
  (str "Educational assessment", [str "exam", str "grade", str "admission", str "educational assessment", str "student evaluation"]),
  (str "Border control", [str "border", str "migration", str "asylum", str "visa", str "immigration"]),
  (str "Justice administration", [str "court", str "judge", str "judicial", str "legal proceeding", str "evidence"]),
  (str "Essential services access", [str "public benefit", str "social service", str "essential service", str "welfare"]),
  (str "Critical infrastructure", [str "power grid", str "water supply", str "transportation system", str "energy infrastructure"])
]

def data_indicators : List (Str × List Str) := [
  (str "Personal data", [str "personal", str "user data", str "individual data"]),
  (str "Location data", [str "location", str "navigation", str "gps", str "geolocation"]),
  (str "Biometric data", [str "biometric", str "facial", str "fingerprint", str "iris", str "voice print"]),
  (str "Voice/Audio data", [str "voice", str "speech", str "audio", str "conversation", str "recording"]),
  (str "Video/Image data", [str "video", str "camera", str "image", str "photograph", str "visual"]),
  (str "Financial data", [str "financial", str "transaction", str "payment", str "banking", str "credit card"]),
  (str "Health data", [str "health", str "medical", str "clinical", str "patient record", str "diagnosis"]),
  (str "Behavioral data", [str "behavior", str "behaviour", str "pattern", str "habit", str "activity"]),
  (str "Sensitive attributes", [str "race", str "ethnicity", str "religion", str "political", str "sexual orientation", str "health status"])
]

def deployment_contexts : List (Str × List Str) := [
  (str "In-vehicle system", [str "vehicle", str "car", str "automotive", str "in-car"]),
  (str "Healthcare facility", [str "hospital", str "clinic", str "medical facility", str "healthcare"]),
  (str "Workplace", [str "workplace", str "office", str "work environment", str "employee"]),
  (str "Public space", [str "public", str "street", str "outdoor", str "public area"]),
  (str "Educational institution", [str "school", str "university", str "classroom", str "campus"]),
  (str "Border crossing", [str "border", str "airport", str "customs", str "immigration"]),
  (str "Law enforcement", [str "police station", str "law enforcement", str "investigation"]),
  (str "Court/Legal", [str "court", str "courthouse", str "legal proceeding"]),
  (str "Online service", [str "online", str "web", str "app", str "digital", str "cloud"]),
  (str "Critical infrastructure", [str "power plant", str "water treatment", str "infrastructure"])
]

def user_bases : List (Str × List Str) := [
  (str "Vehicle drivers and passengers", [str "driver", str "passenger", str "vehicle occupant"]),
  (str "Patients and healthcare providers", [str "patient", str "doctor", str "nurse", str "clinician", str "healthcare provider"]),
  (str "General consumers", [str "customer", str "consumer", str "user", str "client"]),
  (str "Employees and workers", [str "employee", str "worker", str "staff", str "personnel"]),
  (str "Students and educators", [str "student", str "teacher", str "educator", str "learner"]),
  (str "Law enforcement officers", [str "police", str "officer", str "law enforcement"]),
  (str "Border control agents", [str "border agent", str "customs officer", str "immigration officer"]),
  (str "Judges and legal professionals", [str "judge", str "lawyer", str "attorney", str "legal professional"]),
  (str "General public", [str "public", str "citizen", str "resident", str "population"])
]

/-- Python `sum(1 for kw in keywords if kw in text_lower)`: how many keywords
of the list occur in the text. -/
def countMatches (kws : List Str) (t : Str) : Nat :=
  (kws.filter (fun kw => containsSub kw t)).length

/-- The sector loop of `_analyze_description` (src lines 193-199): walk the
taxonomy keeping the best (title-cased label, match count), updating only on
a strictly greater count. -/
def sectorScan (t : Str) : List (Str × List Str) → Str × Nat → Str × Nat
  | [], best => best
  | c :: cs, best =>
      let m := countMatches c.2 t
      if best.2 < m then sectorScan t cs (titleCase c.1, m)
      else sectorScan t cs best

/-- Sector identification: running best over `sector_keywords`, starting from
the default label General with count 0. -/
def analyzeSector (t : Str) : Str :=
  (sectorScan t sector_keywords (str "General", 0)).1

/-- The first-hit-in-declared-order loops of `_analyze_description`: the first
label any of whose keywords occurs in the text, or the default. -/
def firstHit (dflt : Str) (cats : List (Str × List Str)) (t : Str) : Str :=
  match cats.find? (fun c => c.2.any (fun kw => containsSub kw t)) with
  | some c => c.1
  | none => dflt

/-- The accumulate-all-hits loops of `_analyze_description`: every label any
of whose keywords occurs in the text, in declaration order. -/
def accumulateHits (t : Str) : List (Str × List Str) → List Str
  | [] => []
  | c :: cs =>
      if c.2.any (fun kw => containsSub kw t) then c.1 :: accumulateHits t cs
      else accumulateHits t cs

/-- The biometrics purpose if-chain of `_analyze_description`
(src lines 220-227), run once some biometric indicator matched. -/
def purposeScan (t : Str) : Option Str :=
  if containsSub (str "identification") t || containsSub (str "identify") t then
    some (str "identification")
  else if containsSub (str "emotion") t || containsSub (str "sentiment") t then
    some (str "emotion recognition")
  else if containsSub (str "categorization") t || containsSub (str "categorisation") t then
    some (str "categorisation")
  else if containsSub (str "verification") t || containsSub (str "authenticate") t then
    some (str "authentication")
  else
    none

/-- The biometric detection loop (src lines 215-228): on the first indicator
group with a keyword in the text, involvement is true and the purpose scan
runs; with no match the loop leaves (false, none). -/
def analyzeBiometrics (t : Str) : Bool × Option Str :=
  match biometric_indicators.find? (fun c => c.2.any (fun kw => containsSub kw t)) with
  | some _ => (true, purposeScan t)
  | none => (false, none)

/-- `_extract_primary_purpose` (src lines 336-352): split on periods; first a
sentence naming the system or using one of four verbs with stripped length
strictly between 20 and 200; else the first sentence with stripped length
over 30, cut to 150; else the first 150 characters of the text. -/
def extractPrimaryPurpose (text name : Str) : Str :=
  let sentences := List.splitOn '.' text
  match sentences.find? (fun s =>
      (containsSub (lowerStr name) (lowerStr s)
        || [str "uses", str "enables", str "provides", str "helps"].any
             (fun w => containsSub w (lowerStr s)))
      && (decide (20 < (stripStr s).length) && decide ((stripStr s).length < 200))) with
  | some s => stripStr s
  | none =>
    match sentences.find? (fun s => decide (30 < (stripStr s).length)) with
    | some s => (stripStr s).take 150
    | none => text.take 150

/-- The dictionary `_analyze_description` returns (src lines 324-334). -/
structure Analysis where
  sector : Str
  primary_purpose : Str
  user_base : Str
  biometrics_involved : Bool
  biometrics_purpose : Option Str
  decision_making_role : Str
  high_risk_contexts : List Str
  data_processed : List Str
  deployment_context : Str
deriving DecidableEq

/-- `EnhancedInformationHarvestingAgent._analyze_description`: lowercase the
combined text once, then run every taxonomy scan over it. -/
def analyzeDescription (full_text name company : Str) : Analysis :=
  let text_lower := lowerStr full_text
  { sector := analyzeSector text_lower
    primary_purpose := extractPrimaryPurpose full_text name
    user_base := firstHit (str "General public") user_bases text_lower
    biometrics_involved := (analyzeBiometrics text_lower).1
    biometrics_purpose := (analyzeBiometrics text_lower).2
    decision_making_role := firstHit (str "Informational") decision_indicators text_lower
    high_risk_contexts := accumulateHits text_lower risk_indicators
    data_processed := accumulateHits text_lower data_indicators
    deployment_context := firstHit (str "General commercial use") deployment_contexts text_lower }

/-- The f-string of `harvest_from_description` line 91: the analyzed corpus is
the description, a fixed header, then whatever the search stage returned. -/
def combinedInfo (description search_info : Str) : Str :=
  description ++ str "\n\nAdditional Context from Web Search:\n" ++ search_info

/-- The dataclass AISystemProfile (src lines 33-49). -/
structure AISystemProfile where
  name : Str
  company : Str
  description : Str
  sector : Str
  primary_purpose : Str
  user_base : Str
  biometrics_involved : Bool
  biometrics_purpose : Option Str
  decision_making_role : Str
  high_risk_context : List Str
  data_processed : List Str
  deployment_context : Str
  additional_info : Option Str
  search_sources : List Str
deriving DecidableEq

/-- `harvest_from_description` (src lines 75-117).  The outcome of the
external search provider is passed in as `search_text`/`search_src` and is
consulted only when `enable_search` is set, exactly as the Python assigns
`search_info, sources` only under `if self.enable_search`. -/
def harvestFromDescription (enable_search : Bool) (search_text : Str)
    (search_src : List Str) (name company description : Str) : AISystemProfile :=
  let search_info := if enable_search then search_text else []
  let sources := if enable_search then search_src else []
  let combined_info := combinedInfo description search_info
  let analysis := analyzeDescription combined_info name company
  { name := name
    company := company
    description := description
    sector := analysis.sector
    primary_purpose := analysis.primary_purpose
    user_base := analysis.user_base
    biometrics_involved := analysis.biometrics_involved
    biometrics_purpose := analysis.biometrics_purpose
    decision_making_role := analysis.decision_making_role
    high_risk_context := analysis.high_risk_contexts
    data_processed := analysis.data_processed
    deployment_context := analysis.deployment_context
    additional_info := if search_info.isEmpty then none else some search_info
    search_sources := sources }

/-- The enum RiskLevel (src lines 25-31). -/
inductive RiskLevel where
  | prohibited
  | high_risk
  | low_risk
  | transparency_requirements
  | gpai_requirements
  | exception
deriving DecidableEq

/-- The dataclass ClassificationResult (src lines 51-59). -/
structure ClassificationResult where
  risk_level : RiskLevel
  reasoning : List Str
  relevant_articles : List Str
  decision_path : List Str
  confidence : Str
  recommendations : List Str
deriving DecidableEq

/-- The mutable accumulators of RiskClassificationAgent (src lines 358-361),
made an explicit state value. -/
structure AgentState where
  decision_path : List Str
  reasoning : List Str
  recommendations : List Str
deriving DecidableEq

/-- Article 2.6 test: both research and scientific in the description. -/
def scientificResearchCond (p : AISystemProfile) : Bool :=
  containsSub (str "research") (lowerStr p.description)
    && containsSub (str "scientific") (lowerStr p.description)

/-- Article 2.3 test: a military or defence word in the description. -/
def militaryCond (p : AISystemProfile) : Bool :=
  [str "military", str "defence", str "defense"].any
    (fun w => containsSub w (lowerStr p.description))

/-- Article 5.1a test: a manipulation word in the description. -/
def subliminalCond (p : AISystemProfile) : Bool :=
  [str "manipulate", str "subliminal", str "exploit vulnerabilities"].any
    (fun w => containsSub w (lowerStr p.description))

/-- Article 5.1c test: the stem social scor in the description. -/
def socialScoringCond (p : AISystemProfile) : Bool :=
  containsSub (str "social scor") (lowerStr p.description)

/-- Article 5.1h test (the nested ifs of src lines 420-424 collapsed to one
conjunction, the sole effect of the innermost branch being the return). -/
def realTimeBiometricCond (p : AISystemProfile) : Bool :=
  p.biometrics_involved && decide (p.biometrics_purpose = some (str "identification"))
    && (containsSub (str "real-time") (lowerStr p.description)
          || containsSub (str "live") (lowerStr p.description))
    && containsSub (str "public") (lowerStr p.deployment_context)

/-- Article 5.1f test (src lines 427-430): emotion recognition purpose and a
workplace or educational high-risk context. -/
def emotionWorkplaceCond (p : AISystemProfile) : Bool :=
  decide (p.biometrics_purpose = some (str "emotion recognition"))
    && [str "Workplace", str "Educational assessment"].any
         (fun ctx => decide (ctx ∈ p.high_risk_context))

/-- Annex III.1 test: biometrics involved with purpose identification or
categorisation (Python `in ["identification", "categorisation"]`). -/
def annexBiometricCond (p : AISystemProfile) : Bool :=
  p.biometrics_involved
    && [str "identification", str "categorisation"].any
         (fun s => decide (p.biometrics_purpose = some s))

/-- Annex III.2 test, first limb: the Critical infrastructure context. -/
def annexInfrastructureCond (p : AISystemProfile) : Bool :=
  decide (str "Critical infrastructure" ∈ p.high_risk_context)

/-- Annex III.2 test, second limb: a safety-critical or vehicle context. -/
def annexSafetyCond (p : AISystemProfile) : Bool :=
  decide (str "Safety-critical environment" ∈ p.high_risk_context)
    || decide (str "Vehicle operation" ∈ p.high_risk_context)

/-- Annex III.3 test: the Educational assessment context. -/
def annexEducationCond (p : AISystemProfile) : Bool :=
  decide (str "Educational assessment" ∈ p.high_risk_context)

/-- Annex III.4 test: the Employment decision context. -/
def annexEmploymentCond (p : AISystemProfile) : Bool :=
  decide (str "Employment decision" ∈ p.high_risk_context)

/-- Annex III.5 test: the Essential services access or Financial decision
context. -/
def annexEssentialCond (p : AISystemProfile) : Bool :=
  decide (str "Essential services access" ∈ p.high_risk_context)
    || decide (str "Financial decision" ∈ p.high_risk_context)

/-- Annex III.6 test: the Law enforcement context. -/
def annexLawCond (p : AISystemProfile) : Bool :=
  decide (str "Law enforcement" ∈ p.high_risk_context)

/-- Annex III.7 test: the Border control context. -/
def annexBorderCond (p : AISystemProfile) : Bool :=
  decide (str "Border control" ∈ p.high_risk_context)

/-- Annex III.8 test: the Justice administration context. -/
def annexJusticeCond (p : AISystemProfile) : Bool :=
  decide (str "Justice administration" ∈ p.high_risk_context)

/-- Article 50.1 test: an interaction word in the description. -/
def interactiveCond (p : AISystemProfile) : Bool :=
  [str "chat", str "conversational", str "assistant", str "interact"].any
    (fun w => containsSub w (lowerStr p.description))

/-- Article 50.2 test: the stem generat in the description. -/
def generativeCond (p : AISystemProfile) : Bool :=
  containsSub (str "generat") (lowerStr p.description)

/-- `_check_exceptions` (src lines 389-403): push the stage label, then the
two exception tests in order. -/
def checkExceptions (st : AgentState) (p : AISystemProfile) : Bool × AgentState :=
  let st := { st with decision_path := st.decision_path ++ [str "Article 2: Scope exceptions"] }
  if scientificResearchCond p then
    (true, { st with reasoning := st.reasoning
              ++ [str "May qualify for scientific research exception (Article 2.6)"] })
  else if militaryCond p then
    (true, { st with reasoning := st.reasoning
              ++ [str "Military/defence exception applies (Article 2.3)"] })
  else
    (false, st)

/-- `_check_prohibited` (src lines 405-432): push the stage label, then the
four Article 5 tests in order, the first hit returning. -/
def checkProhibited (st : AgentState) (p : AISystemProfile) : Bool × AgentState :=
  let st := { st with decision_path := st.decision_path ++ [str "Article 5: Prohibited AI practices"] }
  if subliminalCond p then
    (true, { st with reasoning := st.reasoning
              ++ [str "ðŸš« PROHIBITED: Subliminal manipulation (Article 5.1a)"] })
  else if socialScoringCond p then
    (true, { st with reasoning := st.reasoning
              ++ [str "ðŸš« PROHIBITED: Social scoring system (Article 5.1c)"] })
  else if realTimeBiometricCond p then
    (true, { st with reasoning := st.reasoning
              ++ [str "ðŸš« PROHIBITED: Real-time remote biometric identification (Article 5.1h)"] })
  else if emotionWorkplaceCond p then
    (true, { st with reasoning := st.reasoning
              ++ [str "ðŸš« PROHIBITED: Emotion recognition in workplace/education (Article 5.1f)"] })
  else
    (false, st)

/-- The general compliance baseline `_add_high_risk_recommendations` always
appends (src lines 514-523). -/
def generalRecommendations : List Str := [
  str "Implement risk management system (Article 9)",
  str "Ensure high-quality training data (Article 10)",
  str "Maintain technical documentation (Article 11)",
  str "Enable logging and traceability (Article 12)",
  str "Implement human oversight (Article 14)",
  str "Ensure accuracy and robustness (Article 15)",
  str "Undergo conformity assessment (Article 43)",
  str "Register in EU database (Article 71)"
]

/-- The category-specific extras table of `_add_high_risk_recommendations`
(src lines 525-530). -/
def specificRecommendations : List (Str × List Str) := [
  (str "safety", [str "Conduct vehicle safety testing", str "Implement fail-safe mechanisms"]),
  (str "biometric", [str "Strict biometric data access controls", str "GDPR compliance"]),
  (str "employment", [str "Human-in-the-loop for decisions", str "Bias testing"]),
  (str "border_control", [str "Data protection for sensitive data", str "Appeal mechanisms"])
]

/-- `_add_high_risk_recommendations` (src lines 512-534): extend by the
general baseline, then by the category extras when the table has the key. -/
def addHighRiskRecommendations (st : AgentState) (category : Str) : AgentState :=
  let st := { st with recommendations := st.recommendations ++ generalRecommendations }
  match specificRecommendations.find? (fun c => decide (c.1 = category)) with
  | some c => { st with recommendations := st.recommendations ++ c.2 }
  | none => st

/-- `_check_high_risk` (src lines 434-492): push the stage label, then the
nine Annex III category tests in order, the first hit recording its reasoning
and recommendations and returning. -/
def checkHighRisk (st : AgentState) (p : AISystemProfile) : Bool × AgentState :=
  let st := { st with decision_path := st.decision_path ++ [str "Article 6 & Annex III: High-risk systems"] }
  if annexBiometricCond p then
    (true, addHighRiskRecommendations
      { st with reasoning := st.reasoning
          ++ [str "âš ï¸ HIGH-RISK: Biometric identification system (Annex III.1)"] }
      (str "biometric"))
  else if annexInfrastructureCond p then
    (true, addHighRiskRecommendations
      { st with reasoning := st.reasoning
          ++ [str "âš ï¸ HIGH-RISK: Critical infrastructure system (Annex III.2)"] }
      (str "infrastructure"))
  else if annexSafetyCond p then
    (true, addHighRiskRecommendations
      { st with reasoning := st.reasoning
          ++ [str "âš ï¸ HIGH-RISK: Safety component in vehicle operation (Annex III.2)",
              str "System operates in safety-critical context"] }
      (str "safety"))
  else if annexEducationCond p then
    (true, addHighRiskRecommendations
      { st with reasoning := st.reasoning
          ++ [str "âš ï¸ HIGH-RISK: Educational assessment system (Annex III.3)"] }
      (str "education"))
  else if annexEmploymentCond p then
    (true, addHighRiskRecommendations
      { st with reasoning := st.reasoning
          ++ [str "âš ï¸ HIGH-RISK: Employment decision system (Annex III.4)"] }
      (str "employment"))
  else if annexEssentialCond p then
    (true, addHighRiskRecommendations
      { st with reasoning := st.reasoning
          ++ [str "âš ï¸ HIGH-RISK: Essential services/creditworthiness (Annex III.5)"] }
      (str "essential_services"))
  else if annexLawCond p then
    (true, addHighRiskRecommendations
      { st with reasoning := st.reasoning
          ++ [str "âš ï¸ HIGH-RISK: Law enforcement application (Annex III.6)"] }
      (str "law_enforcement"))
  else if annexBorderCond p then
    (true, addHighRiskRecommendations
      { st with reasoning := st.reasoning
          ++ [str "âš ï¸ HIGH-RISK: Border control system (Annex III.7)"] }
      (str "border_control"))
  else if annexJusticeCond p then
    (true, addHighRiskRecommendations
      { st with reasoning := st.reasoning
          ++ [str "âš ï¸ HIGH-RISK: Administration of justice (Annex III.8)"] }
      (str "justice"))
  else
    (false, st)

/-- `_check_transparency` (src lines 494-510): push the stage label, then the
two Article 50 tests in order. -/
def checkTransparency (st : AgentState) (p : AISystemProfile) : Bool × AgentState :=
  let st := { st with decision_path := st.decision_path ++ [str "Article 50: Transparency requirements"] }
  if interactiveCond p then
    (true, { st with
        reasoning := st.reasoning
          ++ [str "â„¹ï¸ TRANSPARENCY: Interactive AI system (Article 50.1)"],
        recommendations := st.recommendations ++ [str "Disclose AI interaction to users"] })
  else if generativeCond p then
    (true, { st with
        reasoning := st.reasoning
          ++ [str "â„¹ï¸ TRANSPARENCY: Generative AI system (Article 50.2)"],
        recommendations := st.recommendations ++ [str "Label AI-generated content"] })
  else
    (false, st)

/-- The static articles lookup of `_create_result` (src lines 538-544); the
GPAI level has no key, and `dict.get(risk_level, [])` yields the empty list. -/
def resultArticles : RiskLevel → List Str
  | RiskLevel.prohibited => [str "Article 5 - Prohibited Practices"]
  | RiskLevel.high_risk => [str "Article 6 & Annex III", str "Articles 8-15 - Requirements"]
  | RiskLevel.transparency_requirements => [str "Article 50 - Transparency"]
  | RiskLevel.low_risk => [str "Article 69 - Codes of Conduct (voluntary)"]
  | RiskLevel.exception => [str "Article 2 - Scope exceptions"]
  | RiskLevel.gpai_requirements => []

/-- `_create_result` (src lines 536-555): confidence from the length of the
accumulated reasoning; empty reasoning and empty recommendations are replaced
by their placeholders in the assembled result only. -/
def createResult (st : AgentState) (risk_level : RiskLevel) : ClassificationResult :=
  { risk_level := risk_level
    reasoning := if st.reasoning.isEmpty then [str "No specific risks identified"] else st.reasoning
    relevant_articles := resultArticles risk_level
    decision_path := st.decision_path
    confidence :=
      if 3 ≤ st.reasoning.length then str "High"
      else if 2 ≤ st.reasoning.length then str "Medium"
      else str "Low"
    recommendations :=
      if st.recommendations.isEmpty then [str "Monitor regulatory developments"]
      else st.recommendations }

/-- `classify` (src lines 363-387): reset the three accumulators, then run
the four stage checks in order, the first true check fixing the risk level;
Low-Risk is the default.  The state the call leaves behind is returned next
to the result. -/
def classify (st0 : AgentState) (p : AISystemProfile) : ClassificationResult × AgentState :=
  let st : AgentState := { decision_path := [], reasoning := [], recommendations := [] }
  match checkExceptions st p with
  | (true, st1) => (createResult st1 RiskLevel.exception, st1)
  | (false, st1) =>
    match checkProhibited st1 p with
    | (true, st2) => (createResult st2 RiskLevel.prohibited, st2)
    | (false, st2) =>
      match checkHighRisk st2 p with
      | (true, st3) => (createResult st3 RiskLevel.high_risk, st3)
      | (false, st3) =>
        match checkTransparency st3 p with
        | (true, st4) => (createResult st4 RiskLevel.transparency_requirements, st4)
        | (false, st4) => (createResult st4 RiskLevel.low_risk, st4)

/-- The ClassificationResult one classify call yields. -/
def classifyResult (p : AISystemProfile) : ClassificationResult :=
  (classify { decision_path := [], reasoning := [], recommendations := [] } p).1

/-- One raw record of the search provider, each field possibly missing
(Python `result.get`). -/
structure SearchRecord where
  title : Option Str
  body : Option Str
  href : Option Str
deriving DecidableEq

/-- One collected record of `_search_for_system` (src lines 144-148). -/
structure CollectedResult where
  title : Str
  snippet : Str
  url : Str
deriving DecidableEq

/-- The record `_search_for_system` appends: each missing field defaults to
the empty string (`result.get(key, '')`). -/
def mkCollected (r : SearchRecord) : CollectedResult :=
  { title := r.title.getD [], snippet := r.body.getD [], url := r.href.getD [] }

/-- Python `result.get('href') not in sources`: a missing href is None, and
None equals no string, so the test always passes for it. -/
def hrefFresh (href : Option Str) (sources : List Str) : Bool :=
  match href with
  | none => true
  | some u => decide (u ∉ sources)

/-- The body of the result loop of `_search_for_system` (src lines 141-149):
collect the record and its url when the raw href is not yet a source. -/
def collectStep (acc : List CollectedResult × List Str) (r : SearchRecord) :
    List CollectedResult × List Str :=
  if hrefFresh r.href acc.2 then
    (acc.1 ++ [mkCollected r], acc.2 ++ [r.href.getD []])
  else
    acc

/-- The accumulation over every record of every query of one request. -/
def collectResults (rs : List SearchRecord) : List CollectedResult × List Str :=
  rs.foldl collectStep ([], [])

/-! Basic lemmas about the matching primitives. -/

/-- The substring test agrees with list infix containment. -/
theorem containsSub_iff (needle : Str) : ∀ h : Str, containsSub needle h = true ↔ needle <:+: h := by
  intro h
  induction h with
  | nil =>
      simp [containsSub, List.isEmpty_iff, List.infix_nil]
  | cons c rest ih =>
      simp only [containsSub, Bool.or_eq_true, ih, List.infix_cons_iff]
      constructor
      · rintro (hp | hi)
        · exact Or.inl (List.isPrefixOf_iff_prefix.mp hp)
        · exact Or.inr hi
      · rintro (hp | hi)
        · exact Or.inl (List.isPrefixOf_iff_prefix.mpr hp)
        · exact Or.inr hi

/-- A substring of the middle part is a substring of any extension. -/
theorem containsSub_append (needle x h y : Str) (hn : containsSub needle h = true) :
    containsSub needle (x ++ h ++ y) = true := by
  rw [containsSub_iff] at hn ⊢
  exact hn.trans (List.infix_append x h y)

/-- Lowercasing distributes over concatenation. -/
theorem lowerStr_append (a b : Str) : lowerStr (a ++ b) = lowerStr a ++ lowerStr b := by
  simp [lowerStr]

/-- Membership in an accumulate-all-hits result is exactly having a matched
category in the taxonomy. -/
theorem accumulateHits_mem (t : Str) (l : Str) :
    ∀ cats : List (Str × List Str),
      l ∈ accumulateHits t cats ↔
        ∃ kws, (l, kws) ∈ cats ∧ kws.any (fun kw => containsSub kw t) = true := by
  intro cats
  induction cats with
  | nil => simp [accumulateHits]
  | cons c cs ih =>
      obtain ⟨cl, ckws⟩ := c
      by_cases hc : ckws.any (fun kw => containsSub kw t) = true
      · rw [show accumulateHits t ((cl, ckws) :: cs) = cl :: accumulateHits t cs from by
          simp [accumulateHits, hc]]
        simp only [List.mem_cons, ih, Prod.mk.injEq]
        constructor
        · rintro (rfl | ⟨kws, hmem, hany⟩)
          · exact ⟨ckws, Or.inl ⟨rfl, rfl⟩, hc⟩
          · exact ⟨kws, Or.inr hmem, hany⟩
        · rintro ⟨kws, ⟨rfl, rfl⟩ | hmem, hany⟩
          · exact Or.inl rfl
          · exact Or.inr ⟨kws, hmem, hany⟩
      · rw [show accumulateHits t ((cl, ckws) :: cs) = accumulateHits t cs from by
          simp [accumulateHits, hc]]
        simp only [ih, List.mem_cons, Prod.mk.injEq]
        constructor
        · rintro ⟨kws, hmem, hany⟩
          exact ⟨kws, Or.inr hmem, hany⟩
        · rintro ⟨kws, ⟨rfl, rfl⟩ | hmem, hany⟩
          · exact absurd hany hc
          · exact ⟨kws, hmem, hany⟩

/-- An accumulate-all-hits result is a sublist of the declared labels, in
declaration order. -/
theorem accumulateHits_sublist (t : Str) :
    ∀ cats : List (Str × List Str),
      (accumulateHits t cats).Sublist (cats.map Prod.fst) := by
  intro cats
  induction cats with
  | nil => simp [accumulateHits]
  | cons c cs ih =>
      by_cases hc : c.2.any (fun kw => containsSub kw t) = true
      · simpa [accumulateHits, hc] using ih.cons₂ c.1
      · simpa [accumulateHits, hc] using ih.cons c.1

/-- A first-hit scan with a matching category never returns a default that is
not a declared label. -/
theorem firstHit_ne_default (dflt : Str) (t : Str) :
    ∀ cats : List (Str × List Str),
      (∀ l ∈ cats.map Prod.fst, l ≠ dflt) →
      (∃ c ∈ cats, c.2.any (fun kw => containsSub kw t) = true) →
      firstHit dflt cats t ≠ dflt := by
  intro cats
  induction cats with
  | nil => rintro _ ⟨c, hc, _⟩; simp at hc
  | cons c cs ih =>
      intro hlabels hex
      by_cases hc : c.2.any (fun kw => containsSub kw t) = true
      · have : firstHit dflt (c :: cs) t = c.1 := by
          simp [firstHit, List.find?, hc]
        rw [this]
        exact hlabels c.1 (by simp)
      · have hrec : firstHit dflt (c :: cs) t = firstHit dflt cs t := by
          simp [firstHit, List.find?, hc]
        rw [hrec]
        apply ih
        · intro l hl
          exact hlabels l (by simp [hl])
        · rcases hex with ⟨d, hd, hany⟩
          rcases List.mem_cons.mp hd with rfl | hd
          · exact absurd hany hc
          · exact ⟨d, hd, hany⟩

/-- C6: for every corpus (and any name and company), the analysis collects in
`high_risk_contexts` and `data_processed` exactly the taxonomy labels one of
whose keywords occurs case-insensitively in the corpus, in taxonomy
declaration order (a sublist of the declared label lists), without
duplicates, and with no label outside the declared 11-label and 9-label
taxonomies; no early stop drops a matching label. -/
theorem analyze_accumulates_all_hits (full_text name company : Str) :
    (∀ l, l ∈ (analyzeDescription full_text name company).high_risk_contexts ↔
        ∃ kws, (l, kws) ∈ risk_indicators
          ∧ kws.any (fun kw => containsSub kw (lowerStr full_text)) = true) ∧
    ((analyzeDescription full_text name company).high_risk_contexts).Sublist
      (risk_indicators.map Prod.fst) ∧
    ((analyzeDescription full_text name company).high_risk_contexts).Nodup ∧
    (∀ l, l ∈ (analyzeDescription full_text name company).data_processed ↔
        ∃ kws, (l, kws) ∈ data_indicators
          ∧ kws.any (fun kw => containsSub kw (lowerStr full_text)) = true) ∧
    ((analyzeDescription full_text name company).data_processed).Sublist
      (data_indicators.map Prod.fst) ∧
    ((analyzeDescription full_text name company).data_processed).Nodup := by
  have hrisk : (risk_indicators.map Prod.fst).Nodup := by decide
  have hdata : (data_indicators.map Prod.fst).Nodup := by decide
  exact ⟨fun l => accumulateHits_mem (lowerStr full_text) l risk_indicators,
    accumulateHits_sublist (lowerStr full_text) risk_indicators,
    List.Nodup.sublist (accumulateHits_sublist (lowerStr full_text) risk_indicators) hrisk,
    fun l => accumulateHits_mem (lowerStr full_text) l data_indicators,
    accumulateHits_sublist (lowerStr full_text) data_indicators,
    List.Nodup.sublist (accumulateHits_sublist (lowerStr full_text) data_indicators) hdata⟩

/-- C8: whatever the inputs and whether search is enabled, the harvested
corpus contains the fixed web-search header, whose word web is a keyword of
the Online service deployment context, so the first-hit deployment scan
always matches some label and the profile never carries the default General
commercial use. -/
theorem deployment_context_never_default (enable_search : Bool) (search_text : Str)
    (search_src : List Str) (name company description : Str) :
    (harvestFromDescription enable_search search_text search_src name company
        description).deployment_context ≠ str "General commercial use" := by
  show firstHit (str "General commercial use") deployment_contexts
      (lowerStr (combinedInfo description (if enable_search then search_text else [])))
    ≠ str "General commercial use"
  apply firstHit_ne_default
  · decide
  · refine ⟨(str "Online service",
      [str "online", str "web", str "app", str "digital", str "cloud"]), by decide, ?_⟩
    have hweb : containsSub (str "web")
        (lowerStr (str "\n\nAdditional Context from Web Search:\n")) = true := by decide
    have hsplit : lowerStr (combinedInfo description (if enable_search then search_text else [])) =
        lowerStr description ++ lowerStr (str "\n\nAdditional Context from Web Search:\n")
          ++ lowerStr (if enable_search then search_text else []) := by
      simp [combinedInfo, lowerStr]
    refine List.any_eq_true.mpr ⟨str "web", by decide, ?_⟩
    rw [hsplit]
    exact containsSub_append _ _ _ _ hweb

/-- C9: a harvested profile only ever carries the eleven declared risk
indicator labels, which exclude Workplace, so the Workplace disjunct of the
Article 5.1f emotion-recognition check is unreachable on such profiles: the
check fires exactly when the biometrics purpose is emotion recognition and
Educational assessment is among the high-risk contexts. -/
theorem emotion_prohibition_only_education (enable_search : Bool) (search_text : Str)
    (search_src : List Str) (name company description : Str) :
    str "Workplace" ∉ (harvestFromDescription enable_search search_text search_src
        name company description).high_risk_context ∧
    (emotionWorkplaceCond (harvestFromDescription enable_search search_text search_src
        name company description) = true ↔
      (harvestFromDescription enable_search search_text search_src name company
          description).biometrics_purpose = some (str "emotion recognition") ∧
        str "Educational assessment" ∈ (harvestFromDescription enable_search search_text
          search_src name company description).high_risk_context) := by
  have hw : str "Workplace" ∉ (harvestFromDescription enable_search search_text search_src
      name company description).high_risk_context := by
    intro hmem
    have hsub := accumulateHits_sublist
      (lowerStr (combinedInfo description (if enable_search then search_text else [])))
      risk_indicators
    have hlabel : str "Workplace" ∈ risk_indicators.map Prod.fst := hsub.subset hmem
    revert hlabel
    decide
  refine ⟨hw, ?_⟩
  simp only [emotionWorkplaceCond, Bool.and_eq_true, decide_eq_true_eq, List.any_eq_true]
  constructor
  · rintro ⟨hpur, ctx, hctx, hmem⟩
    simp only [List.mem_cons, List.not_mem_nil, or_false] at hctx
    rcases hctx with rfl | rfl
    · exact absurd hmem hw
    · exact ⟨hpur, hmem⟩
  · rintro ⟨hpur, hmem⟩
    exact ⟨hpur, str "Educational assessment", by simp, hmem⟩

/-- The greatest keyword count any category of the taxonomy attains on the
text (the specification reading of the sector argmax). -/
def maxKeywordScore (t : Str) : List (Str × List Str) → Nat
  | [] => 0
  | c :: cs => max (countMatches c.2 t) (maxKeywordScore t cs)

/-- One unfolding step of the sector scan. -/
theorem sectorScan_cons (t : Str) (d : Str × List Str) (ds : List (Str × List Str))
    (b : Str) (n : Nat) :
    sectorScan t (d :: ds) (b, n) =
      if n < countMatches d.2 t then sectorScan t ds (titleCase d.1, countMatches d.2 t)
      else sectorScan t ds (b, n) := rfl

/-- A scan whose running count already dominates every remaining category
keeps its accumulator: the update needs a strictly greater count. -/
theorem sectorScan_of_le (t : Str) :
    ∀ (cats : List (Str × List Str)) (b : Str) (n : Nat),
      maxKeywordScore t cats ≤ n → sectorScan t cats (b, n) = (b, n) := by
  intro cats
  induction cats with
  | nil => intro b n _; rfl
  | cons d ds ih =>
      intro b n h
      simp only [maxKeywordScore, max_le_iff] at h
      rw [sectorScan_cons, if_neg (by omega)]
      exact ih b n h.2

/-- A positive maximum is attained by some category of the taxonomy. -/
theorem maxKeywordScore_attained (t : Str) :
    ∀ cats : List (Str × List Str), 0 < maxKeywordScore t cats →
      ∃ c ∈ cats, maxKeywordScore t cats ≤ countMatches c.2 t := by
  intro cats
  induction cats with
  | nil => intro h; simp [maxKeywordScore] at h
  | cons d ds ih =>
      intro h
      rcases Nat.le_total (maxKeywordScore t ds) (countMatches d.2 t) with hle | hle
      · refine ⟨d, List.mem_cons_self d ds, ?_⟩
        simp [maxKeywordScore, Nat.max_eq_left hle]
      · have hmax : maxKeywordScore t (d :: ds) = maxKeywordScore t ds := by
          simp [maxKeywordScore, Nat.max_eq_right hle]
        rw [hmax] at h ⊢
        obtain ⟨c, hc, hcle⟩ := ih h
        exact ⟨c, List.mem_cons_of_mem d hc, hcle⟩

/-- When some remaining category strictly beats the running count, the scan
ends at the first category attaining the maximum over the rest. -/
theorem sectorScan_of_lt (t : Str) :
    ∀ (cats : List (Str × List Str)) (b : Str) (n : Nat) (c : Str × List Str),
      n < maxKeywordScore t cats →
      cats.find? (fun d => decide (maxKeywordScore t cats ≤ countMatches d.2 t)) = some c →
      sectorScan t cats (b, n) = (titleCase c.1, maxKeywordScore t cats) := by
  intro cats
  induction cats with
  | nil => intro b n c h _; simp [maxKeywordScore] at h
  | cons d ds ih =>
      intro b n c h hfind
      by_cases hda : maxKeywordScore t (d :: ds) ≤ countMatches d.2 t
      · have hfd : (d :: ds).find?
            (fun d₂ => decide (maxKeywordScore t (d :: ds) ≤ countMatches d₂.2 t)) = some d := by
          rw [List.find?_cons_of_pos]
          simpa using hda
        rw [hfind] at hfd
        obtain rfl : c = d := Option.some_inj.mp hfd
        have hdm : countMatches c.2 t = maxKeywordScore t (c :: ds) :=
          le_antisymm (le_max_left _ _) hda
        rw [sectorScan_cons, if_pos (by omega)]
        rw [hdm]
        exact sectorScan_of_le t ds _ _ (le_max_right _ _)
      · have hmtl : maxKeywordScore t ds = maxKeywordScore t (d :: ds) := by
          have hd2 : countMatches d.2 t ≤ maxKeywordScore t (d :: ds) := le_max_left _ _
          have htl : maxKeywordScore t ds ≤ maxKeywordScore t (d :: ds) := le_max_right _ _
          have : maxKeywordScore t (d :: ds) = max (countMatches d.2 t) (maxKeywordScore t ds) :=
            rfl
          omega
      -- the head does not attain the maximum, so find? moves on
        have hfind2 : ds.find?
            (fun d₂ => decide (maxKeywordScore t (d :: ds) ≤ countMatches d₂.2 t)) = some c := by
          rw [List.find?_cons_of_neg] at hfind
          · exact hfind
          · simpa using hda
        have hfind3 : ds.find?
            (fun d₂ => decide (maxKeywordScore t ds ≤ countMatches d₂.2 t)) = some c := by
          rw [hmtl]
          exact hfind2
        have hlt : countMatches d.2 t < maxKeywordScore t (d :: ds) := by omega
        by_cases hna : n < countMatches d.2 t
        · rw [sectorScan_cons, if_pos hna]
          have := ih (titleCase d.1) (countMatches d.2 t) c (by omega) hfind3
          rwa [hmtl] at this
        · rw [sectorScan_cons, if_neg hna]
          have := ih b n c (by omega) hfind3
          rwa [hmtl] at this

/-- C5: sector selection is argmax with strict-greater updates over the
declared taxonomy: a zero maximum leaves the default General, a positive
maximum makes the sector the title-cased label of the first category
attaining it (so ties resolve to the earlier-declared sector, and a single
keyword hit overrides the default); concretely, the corpus car health hits
automotive and healthcare once each and resolves to Automotive. -/
theorem analyzeSector_argmax_first (t : Str) :
    (maxKeywordScore t sector_keywords = 0 → analyzeSector t = str "General") ∧
    (0 < maxKeywordScore t sector_keywords →
      ∃ c, sector_keywords.find?
          (fun d => decide (maxKeywordScore t sector_keywords ≤ countMatches d.2 t)) = some c ∧
        c ∈ sector_keywords ∧ analyzeSector t = titleCase c.1) ∧
    analyzeSector (str "car health") = str "Automotive" := by
  refine ⟨?_, ?_, by decide⟩
  · intro h0
    show (sectorScan t sector_keywords (str "General", 0)).1 = str "General"
    rw [sectorScan_of_le t sector_keywords (str "General") 0 (by omega)]
  · intro hpos
    obtain ⟨c0, hc0, hle0⟩ := maxKeywordScore_attained t sector_keywords hpos
    have hsome : (sector_keywords.find?
        (fun d => decide (maxKeywordScore t sector_keywords ≤ countMatches d.2 t))).isSome := by
      refine List.find?_isSome.mpr ⟨c0, hc0, ?_⟩
      simpa using hle0
    obtain ⟨c, hc⟩ := Option.isSome_iff_exists.mp hsome
    refine ⟨c, hc, List.mem_of_find?_eq_some hc, ?_⟩
    show (sectorScan t sector_keywords (str "General", 0)).1 = titleCase c.1
    rw [sectorScan_of_lt t sector_keywords (str "General") 0 c hpos hc]

/-- The Exceptions stage predicate: either Article 2 test. -/
def exceptionsPred (p : AISystemProfile) : Bool :=
  scientificResearchCond p || militaryCond p

/-- The Prohibited stage predicate: any Article 5 test. -/
def prohibitedPred (p : AISystemProfile) : Bool :=
  subliminalCond p || socialScoringCond p || realTimeBiometricCond p || emotionWorkplaceCond p

/-- The High-Risk stage predicate: any Annex III category test. -/
def highRiskPred (p : AISystemProfile) : Bool :=
  annexBiometricCond p || annexInfrastructureCond p || annexSafetyCond p
    || annexEducationCond p || annexEmploymentCond p || annexEssentialCond p
    || annexLawCond p || annexBorderCond p || annexJusticeCond p

/-- The Transparency stage predicate: either Article 50 test. -/
def transparencyPred (p : AISystemProfile) : Bool :=
  interactiveCond p || generativeCond p

/-- The Boolean verdict of the Exceptions check does not depend on the
accumulator state. -/
theorem checkExceptions_fst (st : AgentState) (p : AISystemProfile) :
    (checkExceptions st p).1 = exceptionsPred p := by
  by_cases h1 : scientificResearchCond p = true <;>
    by_cases h2 : militaryCond p = true <;>
      simp [checkExceptions, exceptionsPred, h1, h2]

/-- The Boolean verdict of the Prohibited check does not depend on the
accumulator state. -/
theorem checkProhibited_fst (st : AgentState) (p : AISystemProfile) :
    (checkProhibited st p).1 = prohibitedPred p := by
  by_cases h1 : subliminalCond p = true <;>
    by_cases h2 : socialScoringCond p = true <;>
      by_cases h3 : realTimeBiometricCond p = true <;>
        by_cases h4 : emotionWorkplaceCond p = true <;>
          simp [checkProhibited, prohibitedPred, h1, h2, h3, h4]

/-- The Boolean verdict of the High-Risk check does not depend on the
accumulator state. -/
theorem checkHighRisk_fst (st : AgentState) (p : AISystemProfile) :
    (checkHighRisk st p).1 = highRiskPred p := by
  unfold checkHighRisk highRiskPred
  by_cases h1 : annexBiometricCond p = true
  · simp [h1]
  by_cases h2 : annexInfrastructureCond p = true
  · simp [h1, h2]
  by_cases h3 : annexSafetyCond p = true
  · simp [h1, h2, h3]
  by_cases h4 : annexEducationCond p = true
  · simp [h1, h2, h3, h4]
  by_cases h5 : annexEmploymentCond p = true
  · simp [h1, h2, h3, h4, h5]
  by_cases h6 : annexEssentialCond p = true
  · simp [h1, h2, h3, h4, h5, h6]
  by_cases h7 : annexLawCond p = true
  · simp [h1, h2, h3, h4, h5, h6, h7]
  by_cases h8 : annexBorderCond p = true
  · simp [h1, h2, h3, h4, h5, h6, h7, h8]
  by_cases h9 : annexJusticeCond p = true
  · simp [h1, h2, h3, h4, h5, h6, h7, h8, h9]
  simp [h1, h2, h3, h4, h5, h6, h7, h8, h9]

/-- The Boolean verdict of the Transparency check does not depend on the
accumulator state. -/
theorem checkTransparency_fst (st : AgentState) (p : AISystemProfile) :
    (checkTransparency st p).1 = transparencyPred p := by
  by_cases h1 : interactiveCond p = true <;>
    by_cases h2 : generativeCond p = true <;>
      simp [checkTransparency, transparencyPred, h1, h2]

/-- Adding recommendations never touches the decision path. -/
theorem addHighRiskRecommendations_path (st : AgentState) (cat : Str) :
    (addHighRiskRecommendations st cat).decision_path = st.decision_path := by
  rcases h : specificRecommendations.find? (fun c => decide (c.1 = cat)) with _ | c <;>
    simp [addHighRiskRecommendations, h]

/-- The Exceptions check appends exactly its stage label to the path. -/
theorem checkExceptions_path (st : AgentState) (p : AISystemProfile) :
    (checkExceptions st p).2.decision_path
      = st.decision_path ++ [str "Article 2: Scope exceptions"] := by
  by_cases h1 : scientificResearchCond p = true <;>
    by_cases h2 : militaryCond p = true <;>
      simp [checkExceptions, h1, h2]

/-- The Prohibited check appends exactly its stage label to the path. -/
theorem checkProhibited_path (st : AgentState) (p : AISystemProfile) :
    (checkProhibited st p).2.decision_path
      = st.decision_path ++ [str "Article 5: Prohibited AI practices"] := by
  by_cases h1 : subliminalCond p = true <;>
    by_cases h2 : socialScoringCond p = true <;>
      by_cases h3 : realTimeBiometricCond p = true <;>
        by_cases h4 : emotionWorkplaceCond p = true <;>
          simp [checkProhibited, h1, h2, h3, h4]

/-- The High-Risk check appends exactly its stage label to the path. -/
theorem checkHighRisk_path (st : AgentState) (p : AISystemProfile) :
    (checkHighRisk st p).2.decision_path
      = st.decision_path ++ [str "Article 6 & Annex III: High-risk systems"] := by
  unfold checkHighRisk
  by_cases h1 : annexBiometricCond p = true
  · simp [h1, addHighRiskRecommendations_path]
  by_cases h2 : annexInfrastructureCond p = true
  · simp [h1, h2, addHighRiskRecommendations_path]
  by_cases h3 : annexSafetyCond p = true
  · simp [h1, h2, h3, addHighRiskRecommendations_path]
  by_cases h4 : annexEducationCond p = true
  · simp [h1, h2, h3, h4, addHighRiskRecommendations_path]
  by_cases h5 : annexEmploymentCond p = true
  · simp [h1, h2, h3, h4, h5, addHighRiskRecommendations_path]
  by_cases h6 : annexEssentialCond p = true
  · simp [h1, h2, h3, h4, h5, h6, addHighRiskRecommendations_path]
  by_cases h7 : annexLawCond p = true
  · simp [h1, h2, h3, h4, h5, h6, h7, addHighRiskRecommendations_path]
  by_cases h8 : annexBorderCond p = true
  · simp [h1, h2, h3, h4, h5, h6, h7, h8, addHighRiskRecommendations_path]
  by_cases h9 : annexJusticeCond p = true
  · simp [h1, h2, h3, h4, h5, h6, h7, h8, h9, addHighRiskRecommendations_path]
  simp [h1, h2, h3, h4, h5, h6, h7, h8, h9]

/-- The Transparency check appends exactly its stage label to the path. -/
theorem checkTransparency_path (st : AgentState) (p : AISystemProfile) :
    (checkTransparency st p).2.decision_path
      = st.decision_path ++ [str "Article 50: Transparency requirements"] := by
  by_cases h1 : interactiveCond p = true <;>
    by_cases h2 : generativeCond p = true <;>
      simp [checkTransparency, h1, h2]

/-- C1 (amended): classify tests the stages in the fixed order Exceptions,
Prohibited, High-Risk, Transparency, terminating at the first true predicate
with Low-Risk as default, and the decision path lists exactly the stage
labels tested, in order; all four labels are present exactly when the first
three stage predicates fail, that is when the result is
Transparency-Requirements or Low-Risk.  In particular a profile satisfying
both the Exceptions and the Prohibited predicates is classified Exception. -/
theorem classify_stage_order_amended (p : AISystemProfile) :
    (exceptionsPred p = true →
      (classifyResult p).risk_level = RiskLevel.exception ∧
      (classifyResult p).decision_path = [str "Article 2: Scope exceptions"]) ∧
    (exceptionsPred p = false → prohibitedPred p = true →
      (classifyResult p).risk_level = RiskLevel.prohibited ∧
      (classifyResult p).decision_path =
        [str "Article 2: Scope exceptions", str "Article 5: Prohibited AI practices"]) ∧
    (exceptionsPred p = false → prohibitedPred p = false → highRiskPred p = true →
      (classifyResult p).risk_level = RiskLevel.high_risk ∧
      (classifyResult p).decision_path =
        [str "Article 2: Scope exceptions", str "Article 5: Prohibited AI practices",
         str "Article 6 & Annex III: High-risk systems"]) ∧
    (exceptionsPred p = false → prohibitedPred p = false → highRiskPred p = false →
      transparencyPred p = true →
      (classifyResult p).risk_level = RiskLevel.transparency_requirements ∧
      (classifyResult p).decision_path =
        [str "Article 2: Scope exceptions", str "Article 5: Prohibited AI practices",
         str "Article 6 & Annex III: High-risk systems",
         str "Article 50: Transparency requirements"]) ∧
    (exceptionsPred p = false → prohibitedPred p = false → highRiskPred p = false →
      transparencyPred p = false →
      (classifyResult p).risk_level = RiskLevel.low_risk ∧
      (classifyResult p).decision_path =
        [str "Article 2: Scope exceptions", str "Article 5: Prohibited AI practices",
         str "Article 6 & Annex III: High-risk systems",
         str "Article 50: Transparency requirements"]) := by
  rcases hE : checkExceptions { decision_path := [], reasoning := [], recommendations := [] } p
    with ⟨bE, stE⟩
  rcases hP : checkProhibited stE p with ⟨bP, stP⟩
  rcases hH : checkHighRisk stP p with ⟨bH, stH⟩
  rcases hT : checkTransparency stH p with ⟨bT, stT⟩
  have hbE : exceptionsPred p = bE := by
    rw [← checkExceptions_fst { decision_path := [], reasoning := [], recommendations := [] } p,
      hE]
  have hbP : prohibitedPred p = bP := by rw [← checkProhibited_fst stE p, hP]
  have hbH : highRiskPred p = bH := by rw [← checkHighRisk_fst stP p, hH]
  have hbT : transparencyPred p = bT := by rw [← checkTransparency_fst stH p, hT]
  have hpE : stE.decision_path = [str "Article 2: Scope exceptions"] := by
    have := checkExceptions_path
      { decision_path := [], reasoning := [], recommendations := [] } p
    rw [hE] at this
    simpa using this
  have hpP : stP.decision_path =
      [str "Article 2: Scope exceptions", str "Article 5: Prohibited AI practices"] := by
    have := checkProhibited_path stE p
    rw [hP] at this
    rw [hpE] at this
    simpa using this
  have hpH : stH.decision_path =
      [str "Article 2: Scope exceptions", str "Article 5: Prohibited AI practices",
       str "Article 6 & Annex III: High-risk systems"] := by
    have := checkHighRisk_path stP p
    rw [hH] at this
    rw [hpP] at this
    simpa using this
  have hpT : stT.decision_path =
      [str "Article 2: Scope exceptions", str "Article 5: Prohibited AI practices",
       str "Article 6 & Annex III: High-risk systems",
       str "Article 50: Transparency requirements"] := by
    have := checkTransparency_path stH p
    rw [hT] at this
    rw [hpH] at this
    simpa using this
  refine ⟨?_, ?_, ?_, ?_, ?_⟩
  · intro h
    have hb : bE = true := by rw [← hbE, h]
    subst hb
    constructor
    · simp [classifyResult, classify, hE, createResult]
    · simp [classifyResult, classify, hE, createResult, hpE]
  · intro h1 h2
    have hb1 : bE = false := by rw [← hbE, h1]
    have hb2 : bP = true := by rw [← hbP, h2]
    subst hb1; subst hb2
    constructor
    · simp [classifyResult, classify, hE, hP, createResult]
    · simp [classifyResult, classify, hE, hP, createResult, hpP]
  · intro h1 h2 h3
    have hb1 : bE = false := by rw [← hbE, h1]
    have hb2 : bP = false := by rw [← hbP, h2]
    have hb3 : bH = true := by rw [← hbH, h3]
    subst hb1; subst hb2; subst hb3
    constructor
    · simp [classifyResult, classify, hE, hP, hH, createResult]
    · simp [classifyResult, classify, hE, hP, hH, createResult, hpH]
  · intro h1 h2 h3 h4
    have hb1 : bE = false := by rw [← hbE, h1]
    have hb2 : bP = false := by rw [← hbP, h2]
    have hb3 : bH = false := by rw [← hbH, h3]
    have hb4 : bT = true := by rw [← hbT, h4]
    subst hb1; subst hb2; subst hb3; subst hb4
    constructor
    · simp [classifyResult, classify, hE, hP, hH, hT, createResult]
    · simp [classifyResult, classify, hE, hP, hH, hT, createResult, hpT]
  · intro h1 h2 h3 h4
    have hb1 : bE = false := by rw [← hbE, h1]
    have hb2 : bP = false := by rw [← hbP, h2]
    have hb3 : bH = false := by rw [← hbH, h3]
    have hb4 : bT = false := by rw [← hbT, h4]
    subst hb1; subst hb2; subst hb3; subst hb4
    constructor
    · simp [classifyResult, classify, hE, hP, hH, hT, createResult]
    · simp [classifyResult, classify, hE, hP, hH, hT, createResult, hpT]

/-- A profile whose description is the plain chatbot scenario of the spec:
only the Transparency stage predicate holds. -/
def chatProfile : AISystemProfile :=
  { name := [], company := [],
    description := str "A chatbot that answers customer questions",
    sector := str "General", primary_purpose := [], user_base := str "General public",
    biometrics_involved := false, biometrics_purpose := none,
    decision_making_role := str "Informational", high_risk_context := [],
    data_processed := [], deployment_context := str "General commercial use",
    additional_info := none, search_sources := [] }

/-- C1 counterexample: on the chatbot profile all four stage labels are in
the decision path although the result is Transparency-Requirements, not
Low-Risk, so all four labels present is not equivalent to a Low-Risk
result. -/
theorem classify_decision_path_counterexample :
    (classifyResult chatProfile).risk_level = RiskLevel.transparency_requirements ∧
    (classifyResult chatProfile).decision_path =
      [str "Article 2: Scope exceptions", str "Article 5: Prohibited AI practices",
       str "Article 6 & Annex III: High-risk systems",
       str "Article 50: Transparency requirements"] := by
  decide

/-- C3: classify resets the three accumulators on entry, so the result is the
same whatever accumulator state the engine starts from, and an immediate
second classification of the same profile (after the state the first call
left behind) returns the identical result. -/
theorem classify_independent_of_prior_state (st1 st2 : AgentState) (p : AISystemProfile) :
    (classify st1 p).1 = (classify st2 p).1 ∧
    (classify (classify st1 p).2 p).1 = (classify st1 p).1 :=
  ⟨rfl, rfl⟩

/-- C4: confidence is computed from the accumulated reasoning before the
placeholder substitution: High for three or more reasons, Medium for exactly
two, Low otherwise; an empty accumulated reasoning yields the placeholder
list and, because counting precedes the substitution, confidence Low. -/
theorem createResult_confidence_spec (st : AgentState) (level : RiskLevel) :
    (3 ≤ st.reasoning.length → (createResult st level).confidence = str "High") ∧
    (st.reasoning.length = 2 → (createResult st level).confidence = str "Medium") ∧
    (st.reasoning.length ≤ 1 → (createResult st level).confidence = str "Low") ∧
    (st.reasoning = [] →
      (createResult st level).reasoning = [str "No specific risks identified"] ∧
      (createResult st level).confidence = str "Low") := by
  refine ⟨fun h3 => ?_, fun h2 => ?_, fun h1 => ?_, fun hnil => ?_⟩
  · simp [createResult, h3]
  · simp [createResult, h2]
  · have hn3 : ¬ 3 ≤ st.reasoning.length := by omega
    have hn2 : ¬ 2 ≤ st.reasoning.length := by omega
    simp [createResult, hn3, hn2]
  · refine ⟨?_, ?_⟩ <;> simp [createResult, hnil]

/-- One Annex III category as the specification describes the High-Risk
stage: a predicate over the profile, the reasoning lines a match records, and
the key selecting category-specific recommendations. -/
structure AnnexCategory where
  applies : AISystemProfile → Bool
  reasons : List Str
  recKey : Str

/-- The nine Annex III categories in the fixed priority order the
specification states: biometric, critical infrastructure, safety-critical or
vehicle operation, educational assessment, employment decision, essential
services or financial decision, law enforcement, border control, justice
administration. -/
def annexCategoriesSpec : List AnnexCategory := [
  { applies := annexBiometricCond,
    reasons := [str "âš ï¸ HIGH-RISK: Biometric identification system (Annex III.1)"],
    recKey := str "biometric" },
  { applies := annexInfrastructureCond,
    reasons := [str "âš ï¸ HIGH-RISK: Critical infrastructure system (Annex III.2)"],
    recKey := str "infrastructure" },
  { applies := annexSafetyCond,
    reasons := [str "âš ï¸ HIGH-RISK: Safety component in vehicle operation (Annex III.2)",
                str "System operates in safety-critical context"],
    recKey := str "safety" },
  { applies := annexEducationCond,
    reasons := [str "âš ï¸ HIGH-RISK: Educational assessment system (Annex III.3)"],
    recKey := str "education" },
  { applies := annexEmploymentCond,
    reasons := [str "âš ï¸ HIGH-RISK: Employment decision system (Annex III.4)"],
    recKey := str "employment" },
  { applies := annexEssentialCond,
    reasons := [str "âš ï¸ HIGH-RISK: Essential services/creditworthiness (Annex III.5)"],
    recKey := str "essential_services" },
  { applies := annexLawCond,
    reasons := [str "âš ï¸ HIGH-RISK: Law enforcement application (Annex III.6)"],
    recKey := str "law_enforcement" },
  { applies := annexBorderCond,
    reasons := [str "âš ï¸ HIGH-RISK: Border control system (Annex III.7)"],
    recKey := str "border_control" },
  { applies := annexJusticeCond,
    reasons := [str "âš ï¸ HIGH-RISK: Administration of justice (Annex III.8)"],
    recKey := str "justice" }
]

/-- C2: the High-Risk stage is exactly the first-match scan over the nine
Annex III categories in the declared priority order: the first matching
category contributes its reasoning and recommendations and terminates the
stage, so a later matching category never contributes anything; with no
match the stage only records its path label and fails. -/
theorem checkHighRisk_first_category (st : AgentState) (p : AISystemProfile) :
    checkHighRisk st p =
      match annexCategoriesSpec.find? (fun c => c.applies p) with
      | some c =>
          (true, addHighRiskRecommendations
            { st with
                decision_path := st.decision_path
                  ++ [str "Article 6 & Annex III: High-risk systems"],
                reasoning := st.reasoning ++ c.reasons }
            c.recKey)
      | none =>
          (false, { st with decision_path := st.decision_path
              ++ [str "Article 6 & Annex III: High-risk systems"] }) := by
  unfold checkHighRisk annexCategoriesSpec
  by_cases h1 : annexBiometricCond p = true
  · simp [List.find?, h1]
  by_cases h2 : annexInfrastructureCond p = true
  · simp [List.find?, h1, h2]
  by_cases h3 : annexSafetyCond p = true
  · simp [List.find?, h1, h2, h3]
  by_cases h4 : annexEducationCond p = true
  · simp [List.find?, h1, h2, h3, h4]
  by_cases h5 : annexEmploymentCond p = true
  · simp [List.find?, h1, h2, h3, h4, h5]
  by_cases h6 : annexEssentialCond p = true
  · simp [List.find?, h1, h2, h3, h4, h5, h6]
  by_cases h7 : annexLawCond p = true
  · simp [List.find?, h1, h2, h3, h4, h5, h6, h7]
  by_cases h8 : annexBorderCond p = true
  · simp [List.find?, h1, h2, h3, h4, h5, h6, h7, h8]
  by_cases h9 : annexJusticeCond p = true
  · simp [List.find?, h1, h2, h3, h4, h5, h6, h7, h8, h9]
  simp [List.find?, h1, h2, h3, h4, h5, h6, h7, h8, h9]

/-- C7 counterexample: with an empty description and no search text the
analyzed corpus is not the bare concatenation of the two, it is the fixed
web-search header the harvester always inserts. -/
theorem corpus_counterexample :
    combinedInfo [] [] ≠ ([] : Str) ++ ([] : Str) ∧
    combinedInfo [] [] = str "\n\nAdditional Context from Web Search:\n" := by
  decide

/-- C7 (amended): the analyzed corpus is exactly the description, the fixed
header line, then the supplementary search text, the supplementary part
empty when search is disabled; the harvested profile fields come from the
analysis of exactly that corpus, nothing else is inserted. -/
theorem corpus_includes_header_amended (enable_search : Bool) (search_text : Str)
    (search_src : List Str) (name company description : Str) :
    combinedInfo description (if enable_search then search_text else []) =
      description ++ str "\n\nAdditional Context from Web Search:\n"
        ++ (if enable_search then search_text else []) ∧
    (enable_search = false →
      combinedInfo description (if enable_search then search_text else []) =
        description ++ str "\n\nAdditional Context from Web Search:\n") ∧
    (harvestFromDescription enable_search search_text search_src name company
        description).sector =
      (analyzeDescription (combinedInfo description (if enable_search then search_text else []))
        name company).sector ∧
    (harvestFromDescription enable_search search_text search_src name company
        description).high_risk_context =
      (analyzeDescription (combinedInfo description (if enable_search then search_text else []))
        name company).high_risk_contexts ∧
    (harvestFromDescription enable_search search_text search_src name company
        description).primary_purpose =
      (analyzeDescription (combinedInfo description (if enable_search then search_text else []))
        name company).primary_purpose := by
  refine ⟨rfl, fun h => ?_, rfl, rfl, rfl⟩
  subst h
  simp [combinedInfo]

/-- A record whose url is already a collected source is skipped whole. -/
theorem collectStep_skip (acc : List CollectedResult × List Str) (r : SearchRecord)
    (u : Str) (hu : r.href = some u) (hin : u ∈ acc.2) : collectStep acc r = acc := by
  simp [collectStep, hrefFresh, hu, hin]

/-- A record whose url is not yet a source is collected and its url added. -/
theorem collectStep_take (acc : List CollectedResult × List Str) (r : SearchRecord)
    (u : Str) (hu : r.href = some u) (hin : u ∉ acc.2) :
    collectStep acc r = (acc.1 ++ [mkCollected r], acc.2 ++ [u]) := by
  simp [collectStep, hrefFresh, hu, hin]

/-- Fold invariant for the collection loop: with every record carrying a url,
source distinctness is preserved and every collected entry comes from the
accumulator or from one of the records via the defaulting constructor. -/
theorem collectResults_fold_aux :
    ∀ (rs : List SearchRecord) (acc : List CollectedResult × List Str),
      (∀ r ∈ rs, r.href.isSome = true) → acc.2.Nodup →
      (List.foldl collectStep acc rs).2.Nodup ∧
      ∀ c ∈ (List.foldl collectStep acc rs).1,
        c ∈ acc.1 ∨ ∃ r ∈ rs, c = mkCollected r := by
  intro rs
  induction rs with
  | nil =>
      intro acc _ hnd
      exact ⟨hnd, fun c hc => Or.inl hc⟩
  | cons r rs ih =>
      intro acc hall hnd
      rw [List.foldl_cons]
      have hr : r.href.isSome = true := hall r (List.mem_cons_self r rs)
      obtain ⟨u, hu⟩ := Option.isSome_iff_exists.mp hr
      have hall2 : ∀ x ∈ rs, x.href.isSome = true :=
        fun x hx => hall x (List.mem_cons_of_mem r hx)
      by_cases hin : u ∈ acc.2
      · rw [collectStep_skip acc r u hu hin]
        obtain ⟨h1, h2⟩ := ih acc hall2 hnd
        refine ⟨h1, fun c hc => ?_⟩
        rcases h2 c hc with h | ⟨x, hx, hcx⟩
        · exact Or.inl h
        · exact Or.inr ⟨x, List.mem_cons_of_mem r hx, hcx⟩
      · rw [collectStep_take acc r u hu hin]
        have hnd2 : (acc.2 ++ [u]).Nodup := by
          rw [List.nodup_append]
          exact ⟨hnd, List.nodup_singleton u, by simpa using hin⟩
        obtain ⟨h1, h2⟩ := ih (acc.1 ++ [mkCollected r], acc.2 ++ [u]) hall2 hnd2
        refine ⟨h1, fun c hc => ?_⟩
        rcases h2 c hc with h | ⟨x, hx, hcx⟩
        · rcases List.mem_append.mp h with h | h
          · exact Or.inl h
          · exact Or.inr ⟨r, List.mem_cons_self r rs, by simpa using h⟩
        · exact Or.inr ⟨x, List.mem_cons_of_mem r hx, hcx⟩

/-- C10 (amended): when every record of the request carries a url field, the
accumulated records are deduplicated by url and the source list holds no
duplicate identifier; every collected record defaults its missing title and
snippet fields to the empty string (it is the defaulting image of some raw
record).  Records missing the url field escape the deduplication, see the
counterexample. -/
theorem collectResults_dedup_amended (rs : List SearchRecord)
    (h : ∀ r ∈ rs, r.href.isSome = true) :
    (collectResults rs).2.Nodup ∧
    ∀ c ∈ (collectResults rs).1, ∃ r ∈ rs, c = mkCollected r := by
  obtain ⟨h1, h2⟩ := collectResults_fold_aux rs ([], []) h List.nodup_nil
  refine ⟨h1, fun c hc => ?_⟩
  rcases h2 c hc with hmem | hfrom
  · simp at hmem
  · exact hfrom

/-- Witness for the deduplication theorem: two records sharing the url u
yield the single source u. -/
theorem collectResults_dedup_witness :
    (collectResults
      [{ title := some (str "a"), body := some (str "b"), href := some (str "u") },
       { title := none, body := none, href := some (str "u") }]).2.Nodup :=
  (collectResults_dedup_amended _ (by decide)).1

/-- C10 counterexample: two records both missing the url field are both
collected (the Python membership test compares None against strings), so the
source list carries the empty identifier twice and is not duplicate-free. -/
theorem collectResults_counterexample :
    ¬ ((collectResults
        [{ title := none, body := none, href := none },
         { title := none, body := none, href := none }]).2.Nodup) ∧
    (collectResults
        [{ title := none, body := none, href := none },
         { title := none, body := none, href := none }]).2 = [[], []] := by
  decide
